import Mathlib

/-!
Verification of the client-side Subscription Worker
(`src/Documents/Subscriptions/SubscriptionWorker.ts`) against its
natural-language specification.

The TypeScript class is shallowly embedded: each private method that a claim
refers to becomes a Lean function over explicit state, socket writes and
emitted events become explicit lists of actions, thrown exceptions become
`Except` errors carrying the exception's `name` string (the code classifies
errors by `ex.name`), and asynchronous cooperation (pending stream reads,
dispose racing a read, the event-emitter completion callbacks) becomes
explicit sequences of wake events / callback invocations.
-/

namespace SubscriptionWorker

/-- An error value as the worker sees it: the code branches on `ex.name`
(a `RavenErrorType` string) and, for redirect errors, on the
`appropriateNode` property attached in `_assertConnectionState`. -/
structure WorkerError where
  name : String
  message : String := ""
  appropriateNode : Option String := none
deriving Repr, DecidableEq, Inhabited

/-- A server-to-client message. The code discriminates on the string field
`type` (`"Data" | "EndOfBatch" | "Confirm" | "ConnectionStatus" | "Error"`,
anything else being unrecognized), and for `ConnectionStatus` on the string
field `status`. `exception`, `message` and `redirectedTag`
(`data.redirectedTag` in the source) are carried as plain strings. -/
structure ServerMessage where
  type : String
  status : String := ""
  exception : String := ""
  message : String := ""
  redirectedTag : String := ""
deriving Repr, DecidableEq, Inhabited

/-- A cluster node as used by the redirect logic (`ServerNode` in the
source); only `clusterTag` and `url` matter to the claims. -/
structure ServerNode where
  clusterTag : String
  url : String := ""
deriving Repr, DecidableEq, Inhabited

/-- The worker's mutable fields that the verified methods read or write.
`lastConnectionFailure` is a timestamp in milliseconds (`Date.getTime()`),
kept as an `Int`. -/
structure WorkerState where
  processingCancelled : Bool := false
  disposed : Bool := false
  redirectNode : Option ServerNode := none
  lastConnectionFailure : Option Int := none
deriving Repr, DecidableEq, Inhabited

/-- The initial state of a freshly constructed worker. -/
def initialWorkerState : WorkerState := {}

/-! ## C9: write-completion behaviour of `_sendAck`, `_sendOptions`,
`_sendDropMessage`.

Each of the three methods wraps a single `socket.write(payload, callback)`
in a promise. The argument below is the error (if any) that the socket
write reports to that callback; the result is how the promise settles. -/

/-- `_sendAck` (lines 507-518): the write callback is
`(err) => err ? reject(err) : resolve()`, so a reported write error rejects
the promise with that error. -/
def _sendAck (writeErr : Option WorkerError) : Except WorkerError Unit :=
  match writeErr with
  | some e => .error e
  | none => .ok ()

/-- `_sendOptions` (lines 166-182): the write callback is `() => resolve()`;
the error argument of the callback is ignored, so the promise always
resolves. -/
def _sendOptions (writeErr : Option WorkerError) : Except WorkerError Unit :=
  match writeErr with
  | some _ => .ok ()
  | none => .ok ()

/-- `_sendDropMessage` (lines 228-244): the write callback is
`() => resolve()`; the error argument is ignored, so the promise always
resolves. -/
def _sendDropMessage (writeErr : Option WorkerError) : Except WorkerError Unit :=
  match writeErr with
  | some _ => .ok ()
  | none => .ok ()

/-! ## C10: the public `removeListener` method.

`removeListener(event, handler)` (lines 655-668) ends with
`this.removeListener(event as any, handler as any)` - it calls itself,
not `this.off` or `this._emitter.removeListener`. We model the emitter's
listener table and give the recursion explicit fuel: no amount of fuel
lets it reach the emitter, so it never terminates and never removes the
handler, while `off` (lines 642-653) delegates to the emitter. -/

/-- The event-emitter listener table: a list of (event name, handler id)
registrations, most recent last. -/
structure EmitterState where
  listeners : List (String × Nat) := []
deriving Repr, DecidableEq, Inhabited

/-- Node's `EventEmitter.removeListener` removes at most one instance of
the handler: the most recently added one. -/
def emitterRemoveListener (event : String) (handler : Nat)
    (st : EmitterState) : EmitterState :=
  let rec removeLast : List (String × Nat) → List (String × Nat)
    | [] => []
    | p :: rest =>
      if (p = (event, handler)) ∧ ¬((event, handler) ∈ rest) then rest
      else p :: removeLast rest
  ⟨removeLast st.listeners⟩

/-- `off` (lines 642-653): delegates to `this._emitter.removeListener`. -/
def off (event : String) (handler : Nat) (st : EmitterState) : EmitterState :=
  emitterRemoveListener event handler st

/-- The public `removeListener` (lines 655-668): its body is
`this.removeListener(event as any, handler as any); return this;` - an
unconditional call to itself with the same arguments. With `fuel` stack
frames available, the call either recurses (consuming a frame) or, with no
frames left, fails to complete (`none`). It can never return a state. -/
def removeListener (fuel : Nat) (event : String) (handler : Nat)
    (st : EmitterState) : Option EmitterState :=
  match fuel with
  | 0 => none
  | n + 1 => removeListener n event handler st

/-! ## C5: protocol negotiation
(`_readServerResponseAndGetVersion`, lines 205-226, and the negotiated
version check in `_connectToServer`, lines 141-146). -/

/-- `OUT_OF_RANGE_STATUS` is imported from `TcpNegotiation`, a module
outside the analysed sources; every theorem below depends only on whether
a version equals this sentinel, never on its numeric value. -/
def OUT_OF_RANGE_STATUS : Int := -1

/-- The server's `TcpConnectionHeaderResponse`: the code reads the
normalized fields `status`, `version` and `message`. -/
structure TcpHeaderResponse where
  status : String
  version : Int
  message : String := ""
deriving Repr, DecidableEq, Inhabited

/-- A client-to-server write performed during negotiation. -/
inductive NegotiationWrite where
  | dropMessage
deriving Repr, DecidableEq

/-- The payload-construction stage of `_sendDropMessage` (lines 228-244):
building the drop message's `info` string evaluates `reply.version`
(line 234). When `reply` is `undefined` (`none`), that property access
throws a `TypeError` before `this._tcpClient.write` is reached, so
nothing is written; with an actual reply the payload is built and the
single Drop write proceeds (its promise resolves unconditionally - the
write-callback stage is `_sendDropMessage`). The result is the list of
negotiation writes performed. -/
def _sendDropMessageWrites (_dbName : String) (reply : Option TcpHeaderResponse) :
    Except WorkerError (List NegotiationWrite) :=
  match reply with
  | none =>
      .error ⟨"TypeError",
        "Cannot read properties of undefined (reading version)", none⟩
  | some _ => .ok [.dropMessage]

/-- `_readServerResponseAndGetVersion` (lines 205-226): switch on
`x.status`. `"Ok"` returns `x.version`; `"AuthorizationFailed"` throws
`AuthorizationException`; `"TcpVersionMismatch"` returns `x.version`
unless it equals `OUT_OF_RANGE_STATUS`, in which case line 220 awaits
`this._sendDropMessage(x.value)` - but `x` is the header response itself
(`_readNextObject` already unwrapped `data.value`), so it has no `value`
property and the argument is `undefined` (`none`); the subsequent
`throwError("InvalidOperationException", ...)` on line 221 runs only if
that call returns. Any other status falls through the switch to the
final `return x.version`. The result pairs the writes performed with
the promise outcome. -/
def _readServerResponseAndGetVersion (dbName : String) (x : TcpHeaderResponse) :
    List NegotiationWrite × Except WorkerError Int :=
  match x.status with
  | "Ok" => ([], .ok x.version)
  | "AuthorizationFailed" =>
      ([], .error ⟨"AuthorizationException",
        "Cannot access database " ++ dbName ++ " because " ++ x.message, none⟩)
  | "TcpVersionMismatch" =>
      if x.version ≠ OUT_OF_RANGE_STATUS then
        ([], .ok x.version)
      else
        match _sendDropMessageWrites dbName none with
        | .error e => ([], .error e)
        | .ok writes =>
            (writes, .error ⟨"InvalidOperationException",
              "Cannot connect to database " ++ dbName ++ " because: " ++ x.message, none⟩)
  | _ => ([], .ok x.version)

/-- The post-negotiation guard in `_connectToServer` (lines 141-146):
`if (this._supportedFeatures.protocolVersion <= 0) throwError("InvalidOperationException", ...)`,
otherwise the version is kept. -/
def checkNegotiatedProtocolVersion (subscriptionName : String) (v : Int) :
    Except WorkerError Int :=
  if v ≤ 0 then
    .error ⟨"InvalidOperationException",
      subscriptionName ++ " : TCP negotiation resulted with an invalid protocol version: ", none⟩
  else
    .ok v

/-! ## C8: `_readNextObject` (lines 464-505) and `dispose` (lines 74-86).

`_readNextObject` first checks `_processingCancelled` and `_disposed`
(each short-circuits to `null`), then tries a synchronous
`stream.read()`; with no buffered value it awaits whichever of the
stream's `readable` / `error` / `end` events fires first, and on
`readable` it recurses. Each recursion step is modelled as a `ReadStep`:
the worker flags as they stand when the step runs (dispose may have run
in between), the value a synchronous read would return, and - when there
is none - the event that ends the wait. Node emits `readable` once more
at end-of-stream before `end`, which is why `dispose()` (whose
`_parser.end()` drives the stream to its end) wakes a pending read
through the `readable` branch first. An empty step list means the read
stays pending forever (`none`). -/

/-- The stream event that ends a pending wait in `_readNextObject`. -/
inductive WakeEvent where
  | readable
  | ended
  | streamError (e : WorkerError)
deriving Repr, DecidableEq, Inhabited

/-- One attempt of `_readNextObject`: the worker flags at the time the
attempt runs, the buffered value (if any) a synchronous `read()` yields,
and the wake event should the attempt have to wait. -/
structure ReadStep where
  cancelled : Bool
  disposed : Bool
  avail : Option ServerMessage
  wake : WakeEvent
deriving Repr, DecidableEq, Inhabited

/-- The synthetic error built by the `end` handler of `_readNextObject`
(line 501). -/
def streamEndedError : WorkerError :=
  ⟨"SubscriptionException", "Subscription stream has ended unexpectedly.", none⟩

/-- `_readNextObject` (lines 464-505) over a sequence of attempt steps:
cancelled or disposed resolves to `null`; a buffered value is returned;
otherwise the `readable` wake recurses, the `end` wake rejects with the
synthetic `SubscriptionException`, and a stream `error` wake rejects with
that error. `none` means the promise never settles. -/
def _readNextObject : List ReadStep → Option (Except WorkerError (Option ServerMessage))
  | [] => none
  | s :: rest =>
    if s.cancelled then some (.ok none)
    else if s.disposed then some (.ok none)
    else
      match s.avail with
      | some m => some (.ok (some m))
      | none =>
        match s.wake with
        | .readable => _readNextObject rest
        | .ended => some (.error streamEndedError)
        | .streamError e => some (.error e)

/-! ## C1: the batch pump
(`_readSingleSubscriptionBatchFromServer`, lines 414-452, together with
`_assertConnectionState`, lines 246-295). -/

/-- JavaScript `String.prototype.includes`: `s.includes(pat)` - `pat`
occurs as a substring of `s`. -/
def strIncludes (s pat : String) : Bool :=
  (s.splitOn pat).length ≠ 1

/-- `_assertConnectionState` (lines 246-295). A message of type `Error`
whose `exception` mentions `DatabaseDoesNotExistException` throws that
exception; any other non-`ConnectionStatus` type throws
`InvalidOperationException`; then the `status` switch: `Accepted` is
fine, every other branch throws (each `throwError` raises, so the
source's case fall-through is unreachable), with `Redirect` attaching
`data.redirectedTag` as `appropriateNode` on the thrown error and the
`default` branch throwing `InvalidOperationException`. -/
def _assertConnectionState (dbName subscriptionName strategy : String)
    (connectionStatus : ServerMessage) : Except WorkerError Unit :=
  if connectionStatus.type = "Error" ∧
      strIncludes connectionStatus.exception "DatabaseDoesNotExistException" then
    .error ⟨"DatabaseDoesNotExistException",
      dbName ++ " does not exists. " ++ connectionStatus.message, none⟩
  else if connectionStatus.type ≠ "ConnectionStatus" then
    .error ⟨"InvalidOperationException",
      "Server returned illegal type message when expecting connection status, was: "
        ++ connectionStatus.type, none⟩
  else if connectionStatus.status = "Accepted" then
    .ok ()
  else if connectionStatus.status = "InUse" then
    .error ⟨"SubscriptionInUseException",
      "Subscription with id " ++ subscriptionName
        ++ " cannot be opened, because it's in use and the connection strategy is "
        ++ strategy, none⟩
  else if connectionStatus.status = "Closed" then
    .error ⟨"SubscriptionClosedException",
      "Subscription with id " ++ subscriptionName ++ " was closed. "
        ++ connectionStatus.exception, none⟩
  else if connectionStatus.status = "Invalid" then
    .error ⟨"SubscriptionInvalidStateException",
      "Subscription with id " ++ subscriptionName
        ++ " cannot be opened, because it is in invalid state. "
        ++ connectionStatus.exception, none⟩
  else if connectionStatus.status = "NotFound" then
    .error ⟨"SubscriptionDoesNotExistException",
      "Subscription with id " ++ subscriptionName
        ++ " cannot be opened, because it does not exist. "
        ++ connectionStatus.exception, none⟩
  else if connectionStatus.status = "Redirect" then
    .error ⟨"SubscriptionDoesNotBelongToNodeException",
      "Subscription with id " ++ subscriptionName
        ++ " cannot be processed by current node, it will be redirected to "
        ++ connectionStatus.redirectedTag, some connectionStatus.redirectedTag⟩
  else if connectionStatus.status = "ConcurrencyReconnect" then
    .error ⟨"SubscriptionChangeVectorUpdateConcurrencyException",
      connectionStatus.message, none⟩
  else
    .error ⟨"InvalidOperationException",
      "Subscription " ++ subscriptionName ++ " could not be opened, reason: "
        ++ connectionStatus.status, none⟩

/-- The outcome of one call to `_readSingleSubscriptionBatchFromServer`:
`ended` is the normal return out of the `EndOfBatch` branch, carrying the
returned `incomingBatch`, the `batch.items` contents at that point and the
unconsumed remainder of the stream; `exhausted` is the loop break when a
read returns `null`; `failed` is a thrown error. Batch items are
abstracted as `Nat` ids - the function only ever truncates the list. -/
inductive BatchReadResult where
  | ended (incomingBatch : List ServerMessage) (batchItems : List Nat)
      (rest : List ServerMessage)
  | exhausted (incomingBatch : List ServerMessage) (batchItems : List Nat)
  | failed (e : WorkerError)
deriving Repr, DecidableEq

/-- `_readSingleSubscriptionBatchFromServer` (lines 414-452) run over a
list of arriving server messages (the claim's premise - processing never
cancelled, no `null` reads - corresponds to a run that reaches `ended`
before the list runs out). The switch on `receivedMessage.type`: `Data`
pushes onto `incomingBatch`; `EndOfBatch` sets the loop's exit flag, so
the call returns; `Confirm` emits `afterAcknowledgment` (not tracked
here) and truncates both `incomingBatch` and `batch.items` to length 0;
`ConnectionStatus` re-asserts the connection state; `Error` throws via
`_throwSubscriptionError` (an `InvalidOperationException`); any other
type throws via `_throwInvalidServerResponse` (an
`InvalidArgumentException`). -/
def _readSingleSubscriptionBatchFromServer (dbName subscriptionName strategy : String) :
    List ServerMessage → List ServerMessage → List Nat → BatchReadResult
  | [], incomingBatch, batchItems => .exhausted incomingBatch batchItems
  | receivedMessage :: rest, incomingBatch, batchItems =>
    if receivedMessage.type = "Data" then
      _readSingleSubscriptionBatchFromServer dbName subscriptionName strategy rest
        (incomingBatch ++ [receivedMessage]) batchItems
    else if receivedMessage.type = "EndOfBatch" then
      .ended incomingBatch batchItems rest
    else if receivedMessage.type = "Confirm" then
      _readSingleSubscriptionBatchFromServer dbName subscriptionName strategy rest [] []
    else if receivedMessage.type = "ConnectionStatus" then
      match _assertConnectionState dbName subscriptionName strategy receivedMessage with
      | .ok _ =>
        _readSingleSubscriptionBatchFromServer dbName subscriptionName strategy rest
          incomingBatch batchItems
      | .error e => .failed e
    else if receivedMessage.type = "Error" then
      .failed ⟨"InvalidOperationException",
        "Connection terminated by server. Exception: "
          ++ (if receivedMessage.exception = "" then "None" else receivedMessage.exception),
        none⟩
    else
      .failed ⟨"InvalidArgumentException",
        "Unrecognized message " ++ receivedMessage.type ++ " type received from server",
        none⟩

/-- Specification-side description of C1's returned batch: the `Data`
frames that arrived after the most recent `Confirm` frame, in arrival
order. -/
def dataSinceLastConfirm : List ServerMessage → List ServerMessage
  | [] => []
  | m :: rest =>
    if rest.any (fun x => x.type = "Confirm") ∨ m.type = "Confirm" then
      dataSinceLastConfirm rest
    else if m.type = "Data" then
      m :: dataSinceLastConfirm rest
    else
      dataSinceLastConfirm rest

/-- An `Accepted` connection-status message passes
`_assertConnectionState`. -/
theorem assertConnectionState_accepted (dbName subscriptionName strategy : String)
    (m : ServerMessage) (ht : m.type = "ConnectionStatus") (hs : m.status = "Accepted") :
    _assertConnectionState dbName subscriptionName strategy m = .ok () := by
  simp [_assertConnectionState, ht, hs]

/-- Inner invariant for C1: over a prefix of `Data`, `Confirm` and
accepted `ConnectionStatus` frames followed by an `EndOfBatch`, the read
ends having returned the pending accumulator (emptied by any `Confirm`)
extended by the `Data` frames since the last `Confirm`, with
`batch.items` emptied exactly when a `Confirm` occurred, and the
remainder of the stream untouched. -/
theorem readSingleBatch_ended_eq (dbName subscriptionName strategy : String)
    (pre : List ServerMessage)
    (h : ∀ m ∈ pre, m.type = "Data" ∨ m.type = "Confirm" ∨
      (m.type = "ConnectionStatus" ∧ m.status = "Accepted"))
    (eob : ServerMessage) (heob : eob.type = "EndOfBatch")
    (rest : List ServerMessage) (incomingBatch : List ServerMessage)
    (batchItems : List Nat) :
    _readSingleSubscriptionBatchFromServer dbName subscriptionName strategy
        (pre ++ eob :: rest) incomingBatch batchItems =
      .ended ((if pre.any (fun x => x.type = "Confirm") then [] else incomingBatch)
          ++ dataSinceLastConfirm pre)
        (if pre.any (fun x => x.type = "Confirm") then [] else batchItems)
        rest := by
  induction pre generalizing incomingBatch batchItems with
  | nil =>
    simp [_readSingleSubscriptionBatchFromServer, heob, dataSinceLastConfirm]
  | cons m pre ih =>
    have hm := h m (List.mem_cons_self m pre)
    have hpre : ∀ x ∈ pre, x.type = "Data" ∨ x.type = "Confirm" ∨
        (x.type = "ConnectionStatus" ∧ x.status = "Accepted") :=
      fun x hx => h x (List.mem_cons_of_mem m hx)
    rcases hm with hd | hc | ⟨hcs, hst⟩
    · rw [List.cons_append]
      rw [show _readSingleSubscriptionBatchFromServer dbName subscriptionName strategy
          (m :: (pre ++ eob :: rest)) incomingBatch batchItems =
          _readSingleSubscriptionBatchFromServer dbName subscriptionName strategy
            (pre ++ eob :: rest) (incomingBatch ++ [m]) batchItems from by
        simp [_readSingleSubscriptionBatchFromServer, hd]]
      rw [ih hpre]
      by_cases hany : pre.any (fun x => x.type = "Confirm")
      · simp [hany, dataSinceLastConfirm, hd, List.any_cons]
      · simp [hany, dataSinceLastConfirm, hd, List.any_cons]
    · rw [List.cons_append]
      rw [show _readSingleSubscriptionBatchFromServer dbName subscriptionName strategy
          (m :: (pre ++ eob :: rest)) incomingBatch batchItems =
          _readSingleSubscriptionBatchFromServer dbName subscriptionName strategy
            (pre ++ eob :: rest) [] [] from by
        simp [_readSingleSubscriptionBatchFromServer, hc]]
      rw [ih hpre]
      simp [dataSinceLastConfirm, hc, List.any_cons]
    · rw [List.cons_append]
      rw [show _readSingleSubscriptionBatchFromServer dbName subscriptionName strategy
          (m :: (pre ++ eob :: rest)) incomingBatch batchItems =
          _readSingleSubscriptionBatchFromServer dbName subscriptionName strategy
            (pre ++ eob :: rest) incomingBatch batchItems from by
        simp [_readSingleSubscriptionBatchFromServer, hcs,
          assertConnectionState_accepted dbName subscriptionName strategy m hcs hst]]
      rw [ih hpre]
      by_cases hany : pre.any (fun x => x.type = "Confirm")
      · simp [hany, dataSinceLastConfirm, hcs, List.any_cons]
      · simp [hany, dataSinceLastConfirm, hcs, List.any_cons]

/-- Inner invariant for C1: the read returns normally (`ended`) only by
consuming an `EndOfBatch` frame. -/
theorem readSingleBatch_ended_implies_endOfBatch (dbName subscriptionName strategy : String)
    (msgs : List ServerMessage) :
    ∀ incomingBatch batchItems inc it rest,
      _readSingleSubscriptionBatchFromServer dbName subscriptionName strategy
          msgs incomingBatch batchItems = .ended inc it rest →
      ∃ pre eob, msgs = pre ++ eob :: rest ∧ eob.type = "EndOfBatch" := by
  induction msgs with
  | nil =>
    intro incomingBatch batchItems inc it rest hrun
    simp [_readSingleSubscriptionBatchFromServer] at hrun
  | cons m ms ih =>
    intro incomingBatch batchItems inc it rest hrun
    by_cases hd : m.type = "Data"
    · rw [show _readSingleSubscriptionBatchFromServer dbName subscriptionName strategy
          (m :: ms) incomingBatch batchItems =
          _readSingleSubscriptionBatchFromServer dbName subscriptionName strategy
            ms (incomingBatch ++ [m]) batchItems from by
        simp [_readSingleSubscriptionBatchFromServer, hd]] at hrun
      obtain ⟨pre, eob, hms, heob⟩ := ih _ _ _ _ _ hrun
      exact ⟨m :: pre, eob, by simp [hms], heob⟩
    · by_cases he : m.type = "EndOfBatch"
      · rw [show _readSingleSubscriptionBatchFromServer dbName subscriptionName strategy
            (m :: ms) incomingBatch batchItems = .ended incomingBatch batchItems ms from by
          simp [_readSingleSubscriptionBatchFromServer, hd, he]] at hrun
        cases hrun
        exact ⟨[], m, rfl, he⟩
      · by_cases hc : m.type = "Confirm"
        · rw [show _readSingleSubscriptionBatchFromServer dbName subscriptionName strategy
              (m :: ms) incomingBatch batchItems =
              _readSingleSubscriptionBatchFromServer dbName subscriptionName strategy
                ms [] [] from by
            simp [_readSingleSubscriptionBatchFromServer, hd, he, hc]] at hrun
          obtain ⟨pre, eob, hms, heob⟩ := ih _ _ _ _ _ hrun
          exact ⟨m :: pre, eob, by simp [hms], heob⟩
        · by_cases hcs : m.type = "ConnectionStatus"
          · rcases hassert : _assertConnectionState dbName subscriptionName strategy m with
              e | u
            · rw [show _readSingleSubscriptionBatchFromServer dbName subscriptionName strategy
                  (m :: ms) incomingBatch batchItems = .failed e from by
                simp [_readSingleSubscriptionBatchFromServer, hd, he, hc, hcs, hassert]] at hrun
              cases hrun
            · rw [show _readSingleSubscriptionBatchFromServer dbName subscriptionName strategy
                  (m :: ms) incomingBatch batchItems =
                  _readSingleSubscriptionBatchFromServer dbName subscriptionName strategy
                    ms incomingBatch batchItems from by
                simp [_readSingleSubscriptionBatchFromServer, hd, he, hc, hcs, hassert]] at hrun
              obtain ⟨pre, eob, hms, heob⟩ := ih _ _ _ _ _ hrun
              exact ⟨m :: pre, eob, by simp [hms], heob⟩
          · by_cases herr : m.type = "Error"
            · simp [_readSingleSubscriptionBatchFromServer, hd, he, hc, hcs, herr] at hrun
            · simp [_readSingleSubscriptionBatchFromServer, hd, he, hc, hcs, herr] at hrun

/-! ## C6: `currentNodeTag` (lines 91-93) against the worker's
`_redirectNode` writes.

`_redirectNode` is written in exactly two places: `_shouldTryToReconnect`
(line 589) sets it to the topology node a redirect error points at, and
the `catch` in `_connectToServer` (line 115) clears it when contacting
the redirect node fails. Completing a handshake (the success path of
`_connectToServer`) never writes it. -/

/-- The `_redirectNode`-relevant transitions in the worker's lifetime. -/
inductive WorkerTransition where
  | handshakeCompleted (node : ServerNode)
  | redirectResolved (node : ServerNode)
  | redirectContactFailed
deriving Repr, DecidableEq

/-- How each transition updates the worker state: a completed handshake
leaves `_redirectNode` untouched; a resolved redirect stores the target
node; a failed contact with the redirect node clears it. -/
def applyWorkerTransition (st : WorkerState) : WorkerTransition → WorkerState
  | .handshakeCompleted _ => st
  | .redirectResolved node => {st with redirectNode := some node}
  | .redirectContactFailed => {st with redirectNode := none}

/-- A worker lifetime: the state after a sequence of transitions. -/
def applyWorkerTransitions (st : WorkerState) (trace : List WorkerTransition) :
    WorkerState :=
  trace.foldl applyWorkerTransition st

/-- The `currentNodeTag` getter (lines 91-93):
`this._redirectNode ? this._redirectNode.clusterTag : null`. -/
def currentNodeTag (st : WorkerState) : Option String :=
  match st.redirectNode with
  | some node => some node.clusterTag
  | none => none

/-- Specification-side value from the claim's words: the cluster tag of
the last node to which a handshake completed, starting from a given
value. -/
def lastHandshakeTagFrom (acc : Option String) : List WorkerTransition → Option String
  | [] => acc
  | .handshakeCompleted node :: rest => lastHandshakeTagFrom (some node.clusterTag) rest
  | .redirectResolved _ :: rest => lastHandshakeTagFrom acc rest
  | .redirectContactFailed :: rest => lastHandshakeTagFrom acc rest

/-- Specification-side value for the amended claim: the tag of the most
recently resolved redirect node, cleared when contacting it failed,
unchanged by handshakes. -/
def redirectTagFrom (acc : Option String) : List WorkerTransition → Option String
  | [] => acc
  | .handshakeCompleted _ :: rest => redirectTagFrom acc rest
  | .redirectResolved node :: rest => redirectTagFrom (some node.clusterTag) rest
  | .redirectContactFailed :: rest => redirectTagFrom none rest

/-! ## C7: `_emitBatchAndWaitForProcessing` (lines 398-412).

The method captures `listenerCount = this._emitter.listenerCount("batch")`,
emits the batch with a completion callback, and settles the promise from
the callback invocations: an error invocation rejects; an error-free one
decrements the count and resolves when it reaches zero. The argument
below is the sequence of callback invocations in the order they happen
(`some e` = invoked with error `e`, `none` = invoked without error);
`none` as a result means the promise never settles. The count is an
`Int` because the JavaScript decrement can pass zero without ever
hitting the falsy test again. -/

/-- The settling of the promise built by `_emitBatchAndWaitForProcessing`
(lines 398-412) under a sequence of completion-callback invocations. -/
def _emitBatchAndWaitForProcessing (listenerCount : Int) :
    List (Option WorkerError) → Option (Except WorkerError Unit)
  | [] => none
  | some e :: _ => some (.error e)
  | none :: rest =>
    if listenerCount - 1 = 0 then some (.ok ())
    else _emitBatchAndWaitForProcessing (listenerCount - 1) rest

/-! ## C2, C3, C4: the reconnect controller
(`_assertLastConnectionFailure`, lines 554-567; `_shouldTryToReconnect`,
lines 569-609; the catch block of `_runSubscriptionAsync`, lines 520-549;
the task wiring in `on`, lines 627-640; the stream-pipeline error
callback in `_ensureParser`, lines 184-202; the `Accepted` handling in
`_processSubscription`, lines 318-322). Timestamps (`Date.getTime()`)
and durations are milliseconds as `Int`. Thrown errors carry the state at
throw time, since the TypeScript mutations persist past a throw. -/

/-- The eight error names that lines 595-602 of `_shouldTryToReconnect`
treat as fatal: set `_processingCancelled` and return `false`. -/
def isFatalSubscriptionErrorName (n : String) : Bool :=
  n = "SubscriptionInUseException"
    || n = "SubscriptionDoesNotExistException"
    || n = "SubscriptionClosedException"
    || n = "SubscriptionInvalidStateException"
    || n = "DatabaseDoesNotExistException"
    || n = "AuthorizationException"
    || n = "AllTopologyNodesDownException"
    || n = "SubscriberErrorException"

/-- The error thrown by the erroneous-window guard (lines 562-566).
The original causing error becomes the thrown error's cause, which the
model does not track. -/
def erroneousWindowError (maxErroneousPeriod : Int) : WorkerError :=
  ⟨"SubscriptionInvalidStateException",
    "Subscription connection was in invalid state for more than "
      ++ toString maxErroneousPeriod ++ " and therefore will be terminated.", none⟩

/-- `_assertLastConnectionFailure` (lines 554-567): if
`_lastConnectionFailure` is unset, set it to now and return; otherwise
throw `SubscriptionInvalidStateException` when the elapsed time exceeds
`maxErroneousPeriod`. -/
def _assertLastConnectionFailure (now maxErroneousPeriod : Int) (st : WorkerState) :
    Except WorkerError WorkerState :=
  match st.lastConnectionFailure with
  | none => .ok {st with lastConnectionFailure := some now}
  | some t =>
    if now - t > maxErroneousPeriod then .error (erroneousWindowError maxErroneousPeriod)
    else .ok st

/-- `_shouldTryToReconnect` (lines 569-609). Returns `(retry?, state)` or
throws. `SubscriptionDoesNotBelongToNodeException` runs the window
guard, then retries - resolving `appropriateNode` against the local
topology into `_redirectNode` when the tag is truthy, and throwing
`InvalidOperationException` when the tag is not in the topology.
`SubscriptionChangeVectorUpdateConcurrencyException` retries without
touching the guard. The eight fatal names set `_processingCancelled`
and decline. Every other name runs the window guard and retries. -/
def _shouldTryToReconnect (topology : List ServerNode) (now maxErroneousPeriod : Int)
    (ex : WorkerError) (st : WorkerState) :
    Except (WorkerError × WorkerState) (Bool × WorkerState) :=
  if ex.name = "SubscriptionDoesNotBelongToNodeException" then
    match _assertLastConnectionFailure now maxErroneousPeriod st with
    | .error e => .error (e, st)
    | .ok st1 =>
      match ex.appropriateNode with
      | none => .ok (true, st1)
      | some tag =>
        if tag = "" then .ok (true, st1)
        else
          match topology.find? (fun n => n.clusterTag = tag) with
          | none => .error (⟨"InvalidOperationException",
              "Could not redirect to " ++ tag
                ++ ", because it was not found in local topology, even after retrying",
              none⟩, st1)
          | some node => .ok (true, {st1 with redirectNode := some node})
  else if ex.name = "SubscriptionChangeVectorUpdateConcurrencyException" then
    .ok (true, st)
  else if isFatalSubscriptionErrorName ex.name then
    .ok (false, {st with processingCancelled := true})
  else
    match _assertLastConnectionFailure now maxErroneousPeriod st with
    | .error e => .error (e, st)
    | .ok st1 => .ok (true, st1)

/-- An interaction the reconnect controller performs between or after
iterations: the retry delay, and the events emitted on the worker's
emitter. -/
inductive Emitted where
  | sleepFor (ms : Int)
  | connectionRetry (e : WorkerError)
  | errorEvent (e : WorkerError)
  | endEvent
deriving Repr, DecidableEq

/-- What the catch block of `_runSubscriptionAsync` (lines 527-547) does
with an error once `_processingCancelled` has been found false: retry
(sleep, then emit `connectionRetry`), re-throw the same error, or let an
error thrown by `_shouldTryToReconnect` itself escalate. -/
inductive CatchDecision where
  | retry (events : List Emitted) (st : WorkerState)
  | rethrow (e : WorkerError) (st : WorkerState)
  | escalate (e : WorkerError) (st : WorkerState)
deriving Repr, DecidableEq

/-- The catch block of `_runSubscriptionAsync` (lines 527-547) for a
non-cancelled worker: `_shouldTryToReconnect` returning `true` leads to
`await delay(timeToWaitBeforeConnectionRetry)` followed by
`emit("connectionRetry", error)`; returning `false` re-throws; a throw
out of `_shouldTryToReconnect` escalates. -/
def catchSubscriptionError (topology : List ServerNode)
    (timeToWaitBeforeConnectionRetry now maxErroneousPeriod : Int)
    (ex : WorkerError) (st : WorkerState) : CatchDecision :=
  match _shouldTryToReconnect topology now maxErroneousPeriod ex st with
  | .ok (true, st1) =>
    .retry [.sleepFor timeToWaitBeforeConnectionRetry, .connectionRetry ex] st1
  | .ok (false, st1) => .rethrow ex st1
  | .error (e, st1) => .escalate e st1

/-- Lines 312-322 of `_processSubscription`: the first message after
connecting is checked - a `ConnectionStatus` with status `Accepted`
passes directly, anything else goes through `_assertConnectionState`
(which throws for everything except an accepted status) - and then
`this._lastConnectionFailure = null` clears the failure streak. -/
def processInitialConnectionStatus (dbName subscriptionName strategy : String)
    (connectionStatus : ServerMessage) (st : WorkerState) :
    Except WorkerError WorkerState :=
  if connectionStatus.type = "ConnectionStatus" ∧ connectionStatus.status = "Accepted" then
    .ok {st with lastConnectionFailure := none}
  else
    match _assertConnectionState dbName subscriptionName strategy connectionStatus with
    | .ok _ => .ok {st with lastConnectionFailure := none}
    | .error e => .error e

/-- One iteration of the `while` loop of `_runSubscriptionAsync`
(lines 521-548), seen from the loop: `_processSubscription` either
returned normally or threw, and `dispose()` may have run during the
iteration (the only way the cancellation flags change while the loop
body is suspended; `dispose` sets both `_disposed` and
`_processingCancelled`). `now` is the clock when the catch block
classifies the error. -/
inductive IterResult where
  | finished (disposeDuring : Bool)
  | threw (e : WorkerError) (disposeDuring : Bool) (now : Int)
deriving Repr, DecidableEq

/-- How the background task promise settles. -/
inductive TaskOutcome where
  | completed
  | failedTask (e : WorkerError)
deriving Repr, DecidableEq

/-- The flag updates `dispose()` (lines 74-86) performs, applied when it
ran during an iteration. -/
def applyDispose (d : Bool) (st : WorkerState) : WorkerState :=
  if d then {st with disposed := true, processingCancelled := true} else st

/-- `_runSubscriptionAsync` (lines 520-549) over a script of iteration
results: the loop runs while `_processingCancelled` is false; on a throw
it re-checks cancellation (re-throwing only if not disposed, returning
silently otherwise) and otherwise classifies via the catch block -
retrying continues the loop after the sleep and `connectionRetry`
emission, declining or escalating rejects the task. The result pairs the
emissions with the settlement (`none` while the script has not yet
terminated the task). -/
def _runSubscriptionAsync (topology : List ServerNode)
    (timeToWaitBeforeConnectionRetry maxErroneousPeriod : Int) :
    List IterResult → WorkerState → List Emitted × Option (TaskOutcome × WorkerState)
  | [], st =>
    if st.processingCancelled then ([], some (.completed, st)) else ([], none)
  | iter :: rest, st =>
    if st.processingCancelled then ([], some (.completed, st))
    else
      match iter with
      | .finished d =>
        _runSubscriptionAsync topology timeToWaitBeforeConnectionRetry maxErroneousPeriod
          rest (applyDispose d st)
      | .threw e d now =>
        let st1 := applyDispose d st
        if st1.processingCancelled then
          if ¬st1.disposed then ([], some (.failedTask e, st1))
          else ([], some (.completed, st1))
        else
          match catchSubscriptionError topology timeToWaitBeforeConnectionRetry now
              maxErroneousPeriod e st1 with
          | .retry events st2 =>
            let res := _runSubscriptionAsync topology timeToWaitBeforeConnectionRetry
              maxErroneousPeriod rest st2
            (events ++ res.1, res.2)
          | .rethrow e2 st2 => ([], some (.failedTask e2, st2))
          | .escalate e2 st2 => ([], some (.failedTask e2, st2))

/-- The wiring installed on first `batch` listener registration
(lines 633-637):
`this._runSubscriptionAsync().catch(err => emit("error", err)).then(() => emit("end"))`.
A failed task emits `error` with the rejection, then `end`; a completed
task emits only `end`. -/
def subscriptionTaskWiring (out : TaskOutcome) : List Emitted :=
  match out with
  | .completed => [.endEvent]
  | .failedTask e => [.errorEvent e, .endEvent]

/-- The full sequence of events the consumer observes from the background
task: the loop's emissions followed, once the task settles, by the
`catch`/`then` wiring's emissions. -/
def workerTaskTrace (topology : List ServerNode)
    (timeToWaitBeforeConnectionRetry maxErroneousPeriod : Int)
    (script : List IterResult) (st : WorkerState) :
    List Emitted × Option TaskOutcome :=
  match _runSubscriptionAsync topology timeToWaitBeforeConnectionRetry maxErroneousPeriod
      script st with
  | (evs, some (out, _)) => (evs ++ subscriptionTaskWiring out, some out)
  | (evs, none) => (evs, none)

/-- The error callback of the `stream.pipeline` built in `_ensureParser`
(lines 195-198): `if (err && !this._tcpClient.destroyed) this._emitter.emit("error", err)`
- it emits `error` directly, for any pipeline error, whenever the TCP
client is not destroyed. -/
def parserPipelineCallbackEvents (err : Option WorkerError) (tcpClientDestroyed : Bool) :
    List Emitted :=
  match err with
  | some e => if ¬tcpClientDestroyed then [.errorEvent e] else []
  | none => []

/-- When no failure streak is in progress and the elapsed streak is
within the window, `_assertLastConnectionFailure` succeeds. -/
theorem assertLastConnectionFailure_ok (now maxErroneousPeriod : Int) (st : WorkerState)
    (hwin : ∀ t ∈ st.lastConnectionFailure, now - t ≤ maxErroneousPeriod) :
    ∃ st1, _assertLastConnectionFailure now maxErroneousPeriod st = .ok st1 := by
  cases h : st.lastConnectionFailure with
  | none =>
    exact ⟨{st with lastConnectionFailure := some now},
      by simp [_assertLastConnectionFailure, h]⟩
  | some t =>
    have hle := hwin t (by simp [h])
    refine ⟨st, ?_⟩
    simp only [_assertLastConnectionFailure, h]
    rw [if_neg (by omega)]

/-- The only error `_assertLastConnectionFailure` throws is the
erroneous-window `SubscriptionInvalidStateException`. -/
theorem assertLastConnectionFailure_error (now maxErroneousPeriod : Int)
    (st : WorkerState) (e : WorkerError)
    (h : _assertLastConnectionFailure now maxErroneousPeriod st = .error e) :
    e = erroneousWindowError maxErroneousPeriod := by
  unfold _assertLastConnectionFailure at h
  split at h
  · cases h
  · split at h
    · injection h with h2
      exact h2.symm
    · cases h

/-- `_shouldTryToReconnect` declines to retry only in its fatal-names
branch, which also sets `_processingCancelled`. -/
theorem shouldTryToReconnect_ok_false (topology : List ServerNode)
    (now maxErroneousPeriod : Int) (ex : WorkerError) (st st2 : WorkerState)
    (h : _shouldTryToReconnect topology now maxErroneousPeriod ex st = .ok (false, st2)) :
    isFatalSubscriptionErrorName ex.name = true ∧
      st2 = {st with processingCancelled := true} := by
  unfold _shouldTryToReconnect at h
  split at h
  · split at h
    · cases h
    · split at h
      · simp at h
      · split at h
        · simp at h
        · split at h
          · cases h
          · simp at h
  · split at h
    · simp at h
    · split at h
      · next hf =>
        simp at h
        exact ⟨hf, h.symm⟩
      · split at h
        · cases h
        · simp at h

/-- The only errors `_shouldTryToReconnect` throws are the
erroneous-window `SubscriptionInvalidStateException` and the
redirect-target-unknown `InvalidOperationException`. -/
theorem shouldTryToReconnect_error_name (topology : List ServerNode)
    (now maxErroneousPeriod : Int) (ex : WorkerError) (st st2 : WorkerState)
    (e2 : WorkerError)
    (h : _shouldTryToReconnect topology now maxErroneousPeriod ex st = .error (e2, st2)) :
    e2.name = "SubscriptionInvalidStateException" ∨
      e2.name = "InvalidOperationException" := by
  unfold _shouldTryToReconnect at h
  split at h
  · split at h
    · next e1 hassert =>
      have he1 := assertLastConnectionFailure_error now maxErroneousPeriod st e1 hassert
      injection h with h2
      injection h2 with h3 h4
      left
      rw [← h3, he1]
      rfl
    · split at h
      · cases h
      · split at h
        · cases h
        · split at h
          · injection h with h2
            injection h2 with h3 h4
            right
            rw [← h3]
          · cases h
  · split at h
    · cases h
    · split at h
      · cases h
      · split at h
        · next e1 hassert =>
          have he1 := assertLastConnectionFailure_error now maxErroneousPeriod st e1 hassert
          injection h with h2
          injection h2 with h3 h4
          left
          rw [← h3, he1]
          rfl
        · cases h

/-- A retry decision always carries exactly the sleep followed by the
`connectionRetry` emission for the causing error. -/
theorem catchSubscriptionError_retry_events (topology : List ServerNode)
    (timeToWait now maxErroneousPeriod : Int) (ex : WorkerError) (st : WorkerState)
    (events : List Emitted) (st2 : WorkerState)
    (h : catchSubscriptionError topology timeToWait now maxErroneousPeriod ex st =
      .retry events st2) :
    events = [.sleepFor timeToWait, .connectionRetry ex] := by
  unfold catchSubscriptionError at h
  split at h
  · injection h with h1 h2
    exact h1.symm
  · cases h
  · cases h

/-- A rethrow decision re-throws the causing error, whose kind is in the
fatal list. -/
theorem catchSubscriptionError_rethrow_fatal (topology : List ServerNode)
    (timeToWait now maxErroneousPeriod : Int) (ex : WorkerError) (st : WorkerState)
    (e2 : WorkerError) (st2 : WorkerState)
    (h : catchSubscriptionError topology timeToWait now maxErroneousPeriod ex st =
      .rethrow e2 st2) :
    e2 = ex ∧ isFatalSubscriptionErrorName ex.name = true := by
  unfold catchSubscriptionError at h
  split at h
  · cases h
  · next st1 hsh =>
    injection h with h1 h2
    exact ⟨h1.symm,
      (shouldTryToReconnect_ok_false topology now maxErroneousPeriod ex st st1 hsh).1⟩
  · cases h

/-- An escalation carries either the erroneous-window
`SubscriptionInvalidStateException` or the redirect-target-unknown
`InvalidOperationException`. -/
theorem catchSubscriptionError_escalate_name (topology : List ServerNode)
    (timeToWait now maxErroneousPeriod : Int) (ex : WorkerError) (st : WorkerState)
    (e2 : WorkerError) (st2 : WorkerState)
    (h : catchSubscriptionError topology timeToWait now maxErroneousPeriod ex st =
      .escalate e2 st2) :
    e2.name = "SubscriptionInvalidStateException" ∨
      e2.name = "InvalidOperationException" := by
  unfold catchSubscriptionError at h
  split at h
  · cases h
  · cases h
  · next e1 st1 hsh =>
    injection h with h1 h2
    rw [← h1]
    exact shouldTryToReconnect_error_name topology now maxErroneousPeriod ex st st1 e1 hsh

/-- The loop of `_runSubscriptionAsync` itself only sleeps and emits
`connectionRetry`; it never emits `error` or `end`. -/
theorem runSubscriptionAsync_events (topology : List ServerNode)
    (timeToWait maxErroneousPeriod : Int) (script : List IterResult) :
    ∀ (st : WorkerState) (ev : Emitted),
      ev ∈ (_runSubscriptionAsync topology timeToWait maxErroneousPeriod script st).1 →
      (∃ ms, ev = .sleepFor ms) ∨ ∃ e, ev = .connectionRetry e := by
  induction script with
  | nil =>
    intro st ev hev
    by_cases h : st.processingCancelled <;>
      simp [_runSubscriptionAsync, h] at hev
  | cons iter rest ih =>
    intro st ev hev
    by_cases h : st.processingCancelled
    · simp [_runSubscriptionAsync, h] at hev
    · cases iter with
      | finished d =>
        rw [show (_runSubscriptionAsync topology timeToWait maxErroneousPeriod
            (IterResult.finished d :: rest) st) =
            _runSubscriptionAsync topology timeToWait maxErroneousPeriod rest
              (applyDispose d st) from by
          simp [_runSubscriptionAsync, h]] at hev
        exact ih _ ev hev
      | threw e d now =>
        by_cases h1 : (applyDispose d st).processingCancelled
        · by_cases h2 : (applyDispose d st).disposed <;>
            simp [_runSubscriptionAsync, h, h1, h2] at hev
        · cases hcatch : catchSubscriptionError topology timeToWait now
              maxErroneousPeriod e (applyDispose d st) with
          | retry evs st2 =>
            have hev' : ev ∈ evs ++
                (_runSubscriptionAsync topology timeToWait maxErroneousPeriod rest st2).1 := by
              simpa [_runSubscriptionAsync, h, h1, hcatch] using hev
            rcases List.mem_append.mp hev' with hin | hin
            · rw [catchSubscriptionError_retry_events topology timeToWait now
                maxErroneousPeriod e (applyDispose d st) evs st2 hcatch] at hin
              rcases List.mem_cons.mp hin with heq | hin2
              · exact Or.inl ⟨timeToWait, heq⟩
              · rcases List.mem_cons.mp hin2 with heq | hin3
                · exact Or.inr ⟨e, heq⟩
                · simp at hin3
            · exact ih st2 ev hin
          | rethrow e2 st2 =>
            simp [_runSubscriptionAsync, h, h1, hcatch] at hev
          | escalate e2 st2 =>
            simp [_runSubscriptionAsync, h, h1, hcatch] at hev

/-- When the loop of `_runSubscriptionAsync` terminates, it either
completes normally or rejects with an error that is fatal (the fatal
list, which contains the escalated `SubscriptionInvalidStateException`)
or the redirect-target-unknown `InvalidOperationException`. -/
theorem runSubscriptionAsync_outcome (topology : List ServerNode)
    (timeToWait maxErroneousPeriod : Int) (script : List IterResult) :
    ∀ (st : WorkerState) (out : TaskOutcome) (stF : WorkerState),
      (_runSubscriptionAsync topology timeToWait maxErroneousPeriod script st).2 =
        some (out, stF) →
      out = .completed ∨
        ∃ e, out = .failedTask e ∧
          (isFatalSubscriptionErrorName e.name = true ∨
            e.name = "InvalidOperationException") := by
  induction script with
  | nil =>
    intro st out stF hout
    by_cases h : st.processingCancelled
    · rw [show (_runSubscriptionAsync topology timeToWait maxErroneousPeriod [] st) =
          ([], some (.completed, st)) from by simp [_runSubscriptionAsync, h]] at hout
      injection hout with h2
      injection h2 with h3 h4
      exact Or.inl h3.symm
    · simp [_runSubscriptionAsync, h] at hout
  | cons iter rest ih =>
    intro st out stF hout
    by_cases h : st.processingCancelled
    · rw [show (_runSubscriptionAsync topology timeToWait maxErroneousPeriod
          (iter :: rest) st) = ([], some (.completed, st)) from by
        simp [_runSubscriptionAsync, h]] at hout
      injection hout with h2
      injection h2 with h3 h4
      exact Or.inl h3.symm
    · cases iter with
      | finished d =>
        rw [show (_runSubscriptionAsync topology timeToWait maxErroneousPeriod
            (IterResult.finished d :: rest) st) =
            _runSubscriptionAsync topology timeToWait maxErroneousPeriod rest
              (applyDispose d st) from by
          simp [_runSubscriptionAsync, h]] at hout
        exact ih _ out stF hout
      | threw e d now =>
        by_cases h1 : (applyDispose d st).processingCancelled
        · by_cases h2 : (applyDispose d st).disposed
          · rw [show (_runSubscriptionAsync topology timeToWait maxErroneousPeriod
                (IterResult.threw e d now :: rest) st) =
                ([], some (.completed, applyDispose d st)) from by
              simp [_runSubscriptionAsync, h, h1, h2]] at hout
            injection hout with h3
            injection h3 with h4 h5
            exact Or.inl h4.symm
          · cases d with
            | true => simp [applyDispose] at h2
            | false =>
              simp [applyDispose] at h1
              exact absurd h1 h
        · cases hcatch : catchSubscriptionError topology timeToWait now
              maxErroneousPeriod e (applyDispose d st) with
          | retry evs st2 =>
            rw [show ((_runSubscriptionAsync topology timeToWait maxErroneousPeriod
                (IterResult.threw e d now :: rest) st)).2 =
                (_runSubscriptionAsync topology timeToWait maxErroneousPeriod rest st2).2
                from by simp [_runSubscriptionAsync, h, h1, hcatch]] at hout
            exact ih st2 out stF hout
          | rethrow e2 st2 =>
            rw [show (_runSubscriptionAsync topology timeToWait maxErroneousPeriod
                (IterResult.threw e d now :: rest) st) =
                ([], some (.failedTask e2, st2)) from by
              simp [_runSubscriptionAsync, h, h1, hcatch]] at hout
            injection hout with h3
            injection h3 with h4 h5
            obtain ⟨heq, hfat⟩ := catchSubscriptionError_rethrow_fatal topology timeToWait
              now maxErroneousPeriod e (applyDispose d st) e2 st2 hcatch
            refine Or.inr ⟨e2, h4.symm, Or.inl ?_⟩
            rw [heq]
            exact hfat
          | escalate e2 st2 =>
            rw [show (_runSubscriptionAsync topology timeToWait maxErroneousPeriod
                (IterResult.threw e d now :: rest) st) =
                ([], some (.failedTask e2, st2)) from by
              simp [_runSubscriptionAsync, h, h1, hcatch]] at hout
            injection hout with h3
            injection h3 with h4 h5
            rcases catchSubscriptionError_escalate_name topology timeToWait now
              maxErroneousPeriod e (applyDispose d st) e2 st2 hcatch with hn | hn
            · refine Or.inr ⟨e2, h4.symm, Or.inl ?_⟩
              rw [hn]
              rfl
            · exact Or.inr ⟨e2, h4.symm, Or.inr hn⟩

end SubscriptionWorker

namespace SubscriptionWorker

/-- C9: for every socket write of the acknowledgement frame, `_sendAck`
rejects with the write error when the write reports one, whereas
`_sendOptions` and `_sendDropMessage` resolve unconditionally even when
their socket write fails, so a failed options or drop write is never
surfaced to the caller. -/
theorem c9_sendAck_rejects_sendOptions_sendDrop_resolve :
    ∀ e : WorkerError,
      _sendAck (some e) = .error e ∧
      _sendAck none = .ok () ∧
      _sendOptions (some e) = .ok () ∧
      _sendOptions none = .ok () ∧
      _sendDropMessage (some e) = .ok () ∧
      _sendDropMessage none = .ok () := by
  intro e
  refine ⟨rfl, rfl, rfl, rfl, rfl, rfl⟩

/-- C1: for a stream of server messages (processing not cancelled, no
`null` reads), `_readSingleSubscriptionBatchFromServer` returns exactly
the `Data` frames received since the most recent `Confirm` frame in
arrival order (first conjunct, for streams of `Data`/`Confirm`/accepted
`ConnectionStatus` frames up to the terminating `EndOfBatch`); it
terminates normally only upon an `EndOfBatch` frame (second conjunct);
each `Confirm` frame clears both the in-flight buffer and `batch.items`
(third conjunct); and an `Error` frame or a frame of unrecognized type
raises an error instead of returning (fourth and fifth conjuncts). -/
theorem c1_readSingleBatch (dbName subscriptionName strategy : String) :
    (∀ (pre : List ServerMessage),
      (∀ m ∈ pre, m.type = "Data" ∨ m.type = "Confirm" ∨
        (m.type = "ConnectionStatus" ∧ m.status = "Accepted")) →
      ∀ (eob : ServerMessage), eob.type = "EndOfBatch" →
      ∀ (rest : List ServerMessage) (batchItems : List Nat),
        _readSingleSubscriptionBatchFromServer dbName subscriptionName strategy
            (pre ++ eob :: rest) [] batchItems =
          .ended (dataSinceLastConfirm pre)
            (if pre.any (fun x => x.type = "Confirm") then [] else batchItems)
            rest) ∧
    (∀ (msgs : List ServerMessage) (incomingBatch : List ServerMessage)
        (batchItems : List Nat) (inc : List ServerMessage) (it : List Nat)
        (rest : List ServerMessage),
      _readSingleSubscriptionBatchFromServer dbName subscriptionName strategy
          msgs incomingBatch batchItems = .ended inc it rest →
      ∃ pre eob, msgs = pre ++ eob :: rest ∧ eob.type = "EndOfBatch") ∧
    (∀ (m : ServerMessage) (rest : List ServerMessage)
        (incomingBatch : List ServerMessage) (batchItems : List Nat),
      m.type = "Confirm" →
      _readSingleSubscriptionBatchFromServer dbName subscriptionName strategy
          (m :: rest) incomingBatch batchItems =
        _readSingleSubscriptionBatchFromServer dbName subscriptionName strategy
          rest [] []) ∧
    (∀ (m : ServerMessage) (rest : List ServerMessage)
        (incomingBatch : List ServerMessage) (batchItems : List Nat),
      m.type = "Error" →
      ∃ e, _readSingleSubscriptionBatchFromServer dbName subscriptionName strategy
          (m :: rest) incomingBatch batchItems = .failed e) ∧
    (∀ (m : ServerMessage) (rest : List ServerMessage)
        (incomingBatch : List ServerMessage) (batchItems : List Nat),
      m.type ∉ ["Data", "EndOfBatch", "Confirm", "ConnectionStatus", "Error"] →
      ∃ e, _readSingleSubscriptionBatchFromServer dbName subscriptionName strategy
          (m :: rest) incomingBatch batchItems = .failed e) := by
  refine ⟨?_, ?_, ?_, ?_, ?_⟩
  · intro pre hpre eob heob rest batchItems
    rw [readSingleBatch_ended_eq dbName subscriptionName strategy pre hpre eob heob rest
      [] batchItems]
    by_cases hany : pre.any (fun x => x.type = "Confirm") <;> simp [hany]
  · intro msgs incomingBatch batchItems inc it rest hrun
    exact readSingleBatch_ended_implies_endOfBatch dbName subscriptionName strategy msgs
      incomingBatch batchItems inc it rest hrun
  · intro m rest incomingBatch batchItems hc
    simp [_readSingleSubscriptionBatchFromServer, hc]
  · intro m rest incomingBatch batchItems herr
    refine ⟨⟨"InvalidOperationException",
      "Connection terminated by server. Exception: "
        ++ (if m.exception = "" then "None" else m.exception), none⟩, ?_⟩
    simp [_readSingleSubscriptionBatchFromServer, herr]
  · intro m rest incomingBatch batchItems hother
    simp only [List.mem_cons, List.mem_singleton, not_or] at hother
    obtain ⟨hd, he, hc, hcs, herr⟩ := hother
    refine ⟨⟨"InvalidArgumentException",
      "Unrecognized message " ++ m.type ++ " type received from server", none⟩, ?_⟩
    simp [_readSingleSubscriptionBatchFromServer, hd, he, hc, hcs, herr,
      List.not_mem_nil]

/-- Witness for C1 on a concrete stream: `Data d1`, `Confirm`,
`Data d2`, an accepted `ConnectionStatus`, `Data d3`, `EndOfBatch`, then
a further unread message. The read returns `[d2, d3]` (the `Data` frames
since the `Confirm`), empties `batch.items` (initially `[5, 6]`), leaves
the trailing message unconsumed, a lone `Confirm` clears both buffers, an
`Error` frame fails, and an unrecognized `Bogus` frame fails. -/
theorem c1_readSingleBatch_witness :
    (_readSingleSubscriptionBatchFromServer "db" "sub" "OpenIfFree"
        [⟨"Data", "", "", "", "d1"⟩, ⟨"Confirm", "", "", "", ""⟩,
         ⟨"Data", "", "", "", "d2"⟩, ⟨"ConnectionStatus", "Accepted", "", "", ""⟩,
         ⟨"Data", "", "", "", "d3"⟩, ⟨"EndOfBatch", "", "", "", ""⟩,
         ⟨"Data", "", "", "", "d4"⟩] [] [5, 6] =
      .ended [⟨"Data", "", "", "", "d2"⟩, ⟨"Data", "", "", "", "d3"⟩] []
        [⟨"Data", "", "", "", "d4"⟩]) ∧
    (_readSingleSubscriptionBatchFromServer "db" "sub" "OpenIfFree"
        [⟨"Confirm", "", "", "", ""⟩] [⟨"Data", "", "", "", "d1"⟩] [5] =
      _readSingleSubscriptionBatchFromServer "db" "sub" "OpenIfFree" [] [] []) ∧
    (∃ e, _readSingleSubscriptionBatchFromServer "db" "sub" "OpenIfFree"
        [⟨"Error", "", "boom", "", ""⟩] [] [] = .failed e) ∧
    (∃ e, _readSingleSubscriptionBatchFromServer "db" "sub" "OpenIfFree"
        [⟨"Bogus", "", "", "", ""⟩] [] [] = .failed e) := by
  refine ⟨?_, ?_, ?_, ?_⟩
  · have h := (c1_readSingleBatch "db" "sub" "OpenIfFree").1
      [⟨"Data", "", "", "", "d1"⟩, ⟨"Confirm", "", "", "", ""⟩,
       ⟨"Data", "", "", "", "d2"⟩, ⟨"ConnectionStatus", "Accepted", "", "", ""⟩,
       ⟨"Data", "", "", "", "d3"⟩]
      (by decide) ⟨"EndOfBatch", "", "", "", ""⟩ rfl
      [⟨"Data", "", "", "", "d4"⟩] [5, 6]
    simpa using h
  · exact (c1_readSingleBatch "db" "sub" "OpenIfFree").2.2.1
      ⟨"Confirm", "", "", "", ""⟩ [] [⟨"Data", "", "", "", "d1"⟩] [5] rfl
  · exact (c1_readSingleBatch "db" "sub" "OpenIfFree").2.2.2.1
      ⟨"Error", "", "boom", "", ""⟩ [] [] [] rfl
  · exact (c1_readSingleBatch "db" "sub" "OpenIfFree").2.2.2.2
      ⟨"Bogus", "", "", "", ""⟩ [] [] [] (by decide)

/-- C2 (counterexample): a non-fatal error kind does not always retry.
With `last_connection_failure = 0`, `max_erroneous_period = 300000` and
the clock at `300001`, a `TimeoutException` - not in the fatal list -
makes the catch block escalate the erroneous-window
`SubscriptionInvalidStateException` instead of sleeping and emitting
`connectionRetry`. -/
theorem c2_counterexample :
    catchSubscriptionError [] 5000 300001 300000 ⟨"TimeoutException", "", none⟩
        { lastConnectionFailure := some 0 } =
      .escalate (erroneousWindowError 300000) { lastConnectionFailure := some 0 } ∧
    isFatalSubscriptionErrorName "TimeoutException" = false := by
  exact ⟨rfl, rfl⟩

/-- C2 (amended): while processing is not cancelled, an error whose kind
is in the fatal list makes the reconnect controller set
`processing_cancelled` and re-throw it (no retry); every other error
kind retries - sleeping `time_to_wait_before_connection_retry` and then
emitting `connectionRetry` with the causing error - provided the
erroneous-window guard does not escalate (elapsed streak within
`max_erroneous_period`) and, for a
`SubscriptionDoesNotBelongToNodeException` carrying a truthy
`appropriateNode` tag, that tag resolves in the local topology
(otherwise an `InvalidOperationException` escalates instead). -/
theorem c2_fatal_rethrow_others_retry (topology : List ServerNode)
    (timeToWait now maxErroneousPeriod : Int) (ex : WorkerError) (st : WorkerState) :
    (isFatalSubscriptionErrorName ex.name = true →
      catchSubscriptionError topology timeToWait now maxErroneousPeriod ex st =
        .rethrow ex {st with processingCancelled := true}) ∧
    (isFatalSubscriptionErrorName ex.name = false →
      (∀ t ∈ st.lastConnectionFailure, now - t ≤ maxErroneousPeriod) →
      (ex.name = "SubscriptionDoesNotBelongToNodeException" →
        ∀ tag, ex.appropriateNode = some tag → tag ≠ "" →
          (topology.find? (fun n => n.clusterTag = tag)).isSome) →
      ∃ st1, catchSubscriptionError topology timeToWait now maxErroneousPeriod ex st =
        .retry [.sleepFor timeToWait, .connectionRetry ex] st1) := by
  constructor
  · intro hfatal
    have h1 : ex.name ≠ "SubscriptionDoesNotBelongToNodeException" := by
      intro hn
      rw [hn] at hfatal
      exact absurd hfatal (by decide)
    have h2 : ex.name ≠ "SubscriptionChangeVectorUpdateConcurrencyException" := by
      intro hn
      rw [hn] at hfatal
      exact absurd hfatal (by decide)
    simp [catchSubscriptionError, _shouldTryToReconnect, h1, h2, hfatal]
  · intro hnf hwin hred
    obtain ⟨st1, hassert⟩ :=
      assertLastConnectionFailure_ok now maxErroneousPeriod st hwin
    by_cases hdn : ex.name = "SubscriptionDoesNotBelongToNodeException"
    · cases han : ex.appropriateNode with
      | none =>
        exact ⟨st1, by
          simp [catchSubscriptionError, _shouldTryToReconnect, hdn, hassert, han]⟩
      | some tag =>
        by_cases htag : tag = ""
        · exact ⟨st1, by
            simp [catchSubscriptionError, _shouldTryToReconnect, hdn, hassert, han, htag]⟩
        · obtain ⟨node, hfind⟩ :=
            Option.isSome_iff_exists.mp (hred hdn tag han htag)
          exact ⟨{st1 with redirectNode := some node}, by
            simp [catchSubscriptionError, _shouldTryToReconnect, hdn, hassert, han,
              htag, hfind]⟩
    · by_cases hcv : ex.name = "SubscriptionChangeVectorUpdateConcurrencyException"
      · exact ⟨st, by simp [catchSubscriptionError, _shouldTryToReconnect, hdn, hcv]⟩
      · exact ⟨st1, by
          simp [catchSubscriptionError, _shouldTryToReconnect, hdn, hcv, hnf, hassert]⟩

/-- Witness for C2: a fatal `SubscriptionClosedException` is re-thrown
with `processing_cancelled` set, and a redirect error whose target node
is in the topology retries with the sleep and `connectionRetry`
emissions in that order. -/
theorem c2_fatal_rethrow_others_retry_witness :
    (catchSubscriptionError [] 5000 100 300000 ⟨"SubscriptionClosedException", "", none⟩
        initialWorkerState =
      .rethrow ⟨"SubscriptionClosedException", "", none⟩
        {initialWorkerState with processingCancelled := true}) ∧
    (∃ st1, catchSubscriptionError [⟨"B", "http://b"⟩] 5000 100 300000
        ⟨"SubscriptionDoesNotBelongToNodeException", "", some "B"⟩ initialWorkerState =
      .retry [.sleepFor 5000,
        .connectionRetry ⟨"SubscriptionDoesNotBelongToNodeException", "", some "B"⟩] st1) := by
  constructor
  · exact (c2_fatal_rethrow_others_retry [] 5000 100 300000
      ⟨"SubscriptionClosedException", "", none⟩ initialWorkerState).1 (by decide)
  · exact (c2_fatal_rethrow_others_retry [⟨"B", "http://b"⟩] 5000 100 300000
      ⟨"SubscriptionDoesNotBelongToNodeException", "", some "B"⟩ initialWorkerState).2
      (by decide)
      (by intro t ht; simp [initialWorkerState] at ht)
      (by
        intro hname tag htag hne
        injection htag with htag2
        subst htag2
        decide)

/-- C3 (counterexample): a
`SubscriptionChangeVectorUpdateConcurrencyException` is classified as
non-fatal (retry) but skips `_assertLastConnectionFailure` entirely:
with `last_connection_failure` unset at classification time 12345, it is
left unset rather than set to the current time. -/
theorem c3_counterexample :
    _shouldTryToReconnect [] 12345 300000
        ⟨"SubscriptionChangeVectorUpdateConcurrencyException", "", none⟩
        initialWorkerState = .ok (true, initialWorkerState) ∧
    initialWorkerState.lastConnectionFailure = none := by
  exact ⟨rfl, rfl⟩

/-- C3 (amended): on each non-fatal error classification other than
`SubscriptionChangeVectorUpdateConcurrencyException` (which skips the
guard), an unset `last_connection_failure` is set to the current time;
when it is set and the elapsed time exceeds `max_erroneous_period` the
guard escalates a fatal `SubscriptionInvalidStateException`; and
`last_connection_failure` is cleared when the first `ConnectionStatus`
message with status `Accepted` is received after connecting. -/
theorem c3_erroneous_window_guard (dbName subscriptionName strategy : String)
    (topology : List ServerNode) (now maxErroneousPeriod : Int)
    (ex : WorkerError) (st : WorkerState) (t : Int) (msg : ServerMessage) :
    (st.lastConnectionFailure = none →
      _assertLastConnectionFailure now maxErroneousPeriod st =
        .ok {st with lastConnectionFailure := some now}) ∧
    (st.lastConnectionFailure = some t → now - t > maxErroneousPeriod →
      _assertLastConnectionFailure now maxErroneousPeriod st =
        .error (erroneousWindowError maxErroneousPeriod)) ∧
    (isFatalSubscriptionErrorName ex.name = false →
      ex.name ≠ "SubscriptionChangeVectorUpdateConcurrencyException" →
      st.lastConnectionFailure = none →
      (match _shouldTryToReconnect topology now maxErroneousPeriod ex st with
       | .ok (_, st1) => st1.lastConnectionFailure = some now
       | .error (_, st1) => st1.lastConnectionFailure = some now)) ∧
    (msg.type = "ConnectionStatus" → msg.status = "Accepted" →
      processInitialConnectionStatus dbName subscriptionName strategy msg st =
        .ok {st with lastConnectionFailure := none}) := by
  refine ⟨?_, ?_, ?_, ?_⟩
  · intro hnone
    simp [_assertLastConnectionFailure, hnone]
  · intro hsome hgt
    simp only [_assertLastConnectionFailure, hsome]
    rw [if_pos hgt]
  · intro hnf hncv hnone
    have hassert : _assertLastConnectionFailure now maxErroneousPeriod st =
        .ok {st with lastConnectionFailure := some now} := by
      simp [_assertLastConnectionFailure, hnone]
    by_cases hdn : ex.name = "SubscriptionDoesNotBelongToNodeException"
    · cases han : ex.appropriateNode with
      | none => simp [_shouldTryToReconnect, hdn, hassert, han]
      | some tag =>
        by_cases htag : tag = ""
        · simp [_shouldTryToReconnect, hdn, hassert, han, htag]
        · cases hfind : topology.find? (fun n => n.clusterTag = tag) with
          | none => simp [_shouldTryToReconnect, hdn, hassert, han, htag, hfind]
          | some node => simp [_shouldTryToReconnect, hdn, hassert, han, htag, hfind]
    · simp [_shouldTryToReconnect, hdn, hncv, hnf, hassert]
  · intro ht hs
    simp [processInitialConnectionStatus, ht, hs]

/-- Witness for C3: the guard sets an unset `last_connection_failure` to
the current time 100; it escalates at time 300001 over a failure recorded
at 0 with a 300000 window; a generic `SocketException` classification at
time 100 records the failure time in its outcome state; and an accepted
`ConnectionStatus` clears a previously recorded failure. -/
theorem c3_erroneous_window_guard_witness :
    (_assertLastConnectionFailure 100 300000 initialWorkerState =
      .ok {initialWorkerState with lastConnectionFailure := some 100}) ∧
    (_assertLastConnectionFailure 300001 300000 { lastConnectionFailure := some 0 } =
      .error (erroneousWindowError 300000)) ∧
    (match _shouldTryToReconnect [] 100 300000 ⟨"SocketException", "", none⟩
        initialWorkerState with
     | .ok (_, st1) => st1.lastConnectionFailure = some 100
     | .error (_, st1) => st1.lastConnectionFailure = some 100) ∧
    (processInitialConnectionStatus "db" "sub" "OpenIfFree"
        ⟨"ConnectionStatus", "Accepted", "", "", ""⟩ { lastConnectionFailure := some 7 } =
      .ok { lastConnectionFailure := none }) := by
  refine ⟨?_, ?_, ?_, ?_⟩
  · exact (c3_erroneous_window_guard "db" "sub" "OpenIfFree" [] 100 300000
      ⟨"SocketException", "", none⟩ initialWorkerState 0
      ⟨"ConnectionStatus", "Accepted", "", "", ""⟩).1 rfl
  · exact (c3_erroneous_window_guard "db" "sub" "OpenIfFree" [] 300001 300000
      ⟨"SocketException", "", none⟩ { lastConnectionFailure := some 0 } 0
      ⟨"ConnectionStatus", "Accepted", "", "", ""⟩).2.1 rfl (by decide)
  · exact (c3_erroneous_window_guard "db" "sub" "OpenIfFree" [] 100 300000
      ⟨"SocketException", "", none⟩ initialWorkerState 0
      ⟨"ConnectionStatus", "Accepted", "", "", ""⟩).2.2.1 (by decide) (by decide) rfl
  · exact (c3_erroneous_window_guard "db" "sub" "OpenIfFree" [] 100 300000
      ⟨"SocketException", "", none⟩ { lastConnectionFailure := some 7 } 0
      ⟨"ConnectionStatus", "Accepted", "", "", ""⟩).2.2.2 rfl rfl

/-- C4 (counterexample): a retryable error can be delivered to the
`error` event. A stream-pipeline error - here a connection reset, a kind
classified as retryable by the reconnect controller - is emitted on
`error` by the `_ensureParser` pipeline callback whenever the TCP client
is not destroyed, even though the same error, when it surfaces from the
iteration, is retried rather than re-thrown. -/
theorem c4_counterexample :
    parserPipelineCallbackEvents (some ⟨"ConnectionResetException", "", none⟩) false =
      [.errorEvent ⟨"ConnectionResetException", "", none⟩] ∧
    _shouldTryToReconnect [] 0 300000 ⟨"ConnectionResetException", "", none⟩
        initialWorkerState =
      .ok (true, {initialWorkerState with lastConnectionFailure := some 0}) := by
  exact ⟨rfl, rfl⟩

/-- C4 (amended): through the background task's wiring, an error
classified as retryable is never delivered to the `error` event - the
loop only sleeps and emits `connectionRetry`; only a fatal error (a
fatal-list kind, including the escalated
`SubscriptionInvalidStateException`, or the redirect-target-unknown
`InvalidOperationException`) reaches `error`, followed by `end`; `end`
fires exactly once, as the last event, whenever the task terminates; and
after a normal dispose during an iteration the task completes with `end`
and no `error`. (The `_ensureParser` stream-pipeline callback, outside
this wiring, can additionally emit `error` for any pipeline error while
the TCP client is not destroyed.) -/
theorem c4_task_events (topology : List ServerNode)
    (timeToWait maxErroneousPeriod : Int)
    (script : List IterResult) (st : WorkerState) :
    (∀ out, (workerTaskTrace topology timeToWait maxErroneousPeriod script st).2 =
        some out →
      ∃ evs0, (workerTaskTrace topology timeToWait maxErroneousPeriod script st).1 =
          evs0 ++ [.endEvent] ∧ Emitted.endEvent ∉ evs0) ∧
    (∀ e, Emitted.errorEvent e ∈
        (workerTaskTrace topology timeToWait maxErroneousPeriod script st).1 →
      (workerTaskTrace topology timeToWait maxErroneousPeriod script st).2 =
        some (.failedTask e)) ∧
    (∀ e, (workerTaskTrace topology timeToWait maxErroneousPeriod script st).2 =
        some (.failedTask e) →
      isFatalSubscriptionErrorName e.name = true ∨
        e.name = "InvalidOperationException") ∧
    (∀ (e : WorkerError) (now : Int) (rest : List IterResult),
      st.processingCancelled = false →
      workerTaskTrace topology timeToWait maxErroneousPeriod
          (.threw e true now :: rest) st = ([.endEvent], some .completed)) := by
  refine ⟨?_, ?_, ?_, ?_⟩
  · intro out hsome
    rcases hrun : _runSubscriptionAsync topology timeToWait maxErroneousPeriod script st
      with ⟨levs, ores⟩
    cases ores with
    | none => simp [workerTaskTrace, hrun] at hsome
    | some p =>
      obtain ⟨out0, stF⟩ := p
      simp only [workerTaskTrace, hrun]
      cases out0 with
      | completed =>
        refine ⟨levs, rfl, ?_⟩
        intro hmem
        rcases runSubscriptionAsync_events topology timeToWait maxErroneousPeriod script
          st .endEvent (by rw [hrun]; exact hmem) with ⟨ms, hx⟩ | ⟨e, hx⟩ <;> cases hx
      | failedTask e =>
        refine ⟨levs ++ [.errorEvent e], by simp [subscriptionTaskWiring], ?_⟩
        intro hmem
        rcases List.mem_append.mp hmem with hin | hin
        · rcases runSubscriptionAsync_events topology timeToWait maxErroneousPeriod script
            st .endEvent (by rw [hrun]; exact hin) with ⟨ms, hx⟩ | ⟨e', hx⟩ <;> cases hx
        · simp at hin
  · intro e hmem
    rcases hrun : _runSubscriptionAsync topology timeToWait maxErroneousPeriod script st
      with ⟨levs, ores⟩
    cases ores with
    | none =>
      simp only [workerTaskTrace, hrun] at hmem
      rcases runSubscriptionAsync_events topology timeToWait maxErroneousPeriod script
        st (.errorEvent e) (by rw [hrun]; exact hmem) with ⟨ms, hx⟩ | ⟨e', hx⟩ <;> cases hx
    | some p =>
      obtain ⟨out0, stF⟩ := p
      simp only [workerTaskTrace, hrun] at hmem ⊢
      rcases List.mem_append.mp hmem with hin | hin
      · rcases runSubscriptionAsync_events topology timeToWait maxErroneousPeriod script
          st (.errorEvent e) (by rw [hrun]; exact hin) with ⟨ms, hx⟩ | ⟨e', hx⟩ <;> cases hx
      · cases out0 with
        | completed => simp [subscriptionTaskWiring] at hin
        | failedTask e' =>
          simp [subscriptionTaskWiring] at hin
          rw [hin]
  · intro e hfail
    rcases hrun : _runSubscriptionAsync topology timeToWait maxErroneousPeriod script st
      with ⟨levs, ores⟩
    cases ores with
    | none => simp [workerTaskTrace, hrun] at hfail
    | some p =>
      obtain ⟨out0, stF⟩ := p
      simp only [workerTaskTrace, hrun] at hfail
      injection hfail with hfail2
      rcases runSubscriptionAsync_outcome topology timeToWait maxErroneousPeriod script
        st out0 stF (by rw [hrun]) with hco | ⟨e', heq, hcls⟩
      · rw [hco] at hfail2
        cases hfail2
      · rw [heq] at hfail2
        injection hfail2 with he
        rw [← he]
        exact hcls
  · intro e now rest hc
    simp [workerTaskTrace, _runSubscriptionAsync, hc, applyDispose, subscriptionTaskWiring]

/-- Witness for C4: a dispose during the first iteration ends the task
with only `end` emitted, and a trace rejecting with
`SubscriptionClosedException` is classified fatal by the third
conjunct. -/
theorem c4_task_events_witness :
    (workerTaskTrace [] 5000 300000
        [.threw ⟨"TimeoutException", "", none⟩ true 0] initialWorkerState =
      ([.endEvent], some .completed)) ∧
    (isFatalSubscriptionErrorName "SubscriptionClosedException" = true ∨
      ("SubscriptionClosedException" : String) = "InvalidOperationException") := by
  constructor
  · exact (c4_task_events [] 5000 300000 [] initialWorkerState).2.2.2
      ⟨"TimeoutException", "", none⟩ 0 [] rfl
  · exact (c4_task_events [] 5000 300000
      [.threw ⟨"SubscriptionClosedException", "", none⟩ false 0]
      initialWorkerState).2.2.1 ⟨"SubscriptionClosedException", "", none⟩ rfl

/-- C5 (code bug at the out-of-range branch): status `Ok` yields the
response's version; `AuthorizationFailed` raises
`AuthorizationException`; any `TcpVersionMismatch` version other than
`OUT_OF_RANGE_STATUS` is selected; a final negotiated protocol version
≤ 0 raises `InvalidOperationException` - all as claimed. But at
`TcpVersionMismatch` with version `OUT_OF_RANGE_STATUS`, line 220 passes
`x.value` - `undefined`, since `x` is the already-unwrapped header
response - to `_sendDropMessage`, whose `reply.version` access
(line 234) throws a `TypeError` before the socket write: no Drop frame
is written and the `InvalidOperationException` throw on line 221 is
never reached, even though that throw, the line 219 comment and the
claim all show the intended behaviour. -/
theorem c5_negotiation_cases (dbName subscriptionName : String)
    (x : TcpHeaderResponse) (v : Int) :
    (x.status = "Ok" →
      _readServerResponseAndGetVersion dbName x = ([], .ok x.version)) ∧
    (x.status = "AuthorizationFailed" →
      ∃ e : WorkerError, _readServerResponseAndGetVersion dbName x = ([], .error e) ∧
        e.name = "AuthorizationException") ∧
    (x.status = "TcpVersionMismatch" → x.version = OUT_OF_RANGE_STATUS →
      ∃ e : WorkerError,
        _readServerResponseAndGetVersion dbName x = ([], .error e) ∧
        e.name = "TypeError") ∧
    (x.status = "TcpVersionMismatch" → x.version ≠ OUT_OF_RANGE_STATUS →
      _readServerResponseAndGetVersion dbName x = ([], .ok x.version)) ∧
    (v ≤ 0 →
      ∃ e : WorkerError, checkNegotiatedProtocolVersion subscriptionName v = .error e ∧
        e.name = "InvalidOperationException") := by
  refine ⟨?_, ?_, ?_, ?_, ?_⟩
  · intro h
    simp [_readServerResponseAndGetVersion, h]
  · intro h
    refine ⟨⟨"AuthorizationException",
      "Cannot access database " ++ dbName ++ " because " ++ x.message, none⟩, ?_, rfl⟩
    simp [_readServerResponseAndGetVersion, h]
  · intro h hv
    refine ⟨⟨"TypeError",
      "Cannot read properties of undefined (reading version)", none⟩, ?_, rfl⟩
    simp [_readServerResponseAndGetVersion, _sendDropMessageWrites, h, hv]
  · intro h hv
    simp [_readServerResponseAndGetVersion, h, hv]
  · intro h
    refine ⟨⟨"InvalidOperationException",
      subscriptionName ++ " : TCP negotiation resulted with an invalid protocol version: ",
      none⟩, ?_, rfl⟩
    simp [checkNegotiatedProtocolVersion, h]

/-- Witness for C5 at concrete responses: an `Ok` response with version
42, an `AuthorizationFailed` response, the failing out-of-range mismatch
(no writes, a `TypeError` instead of the intended Drop +
`InvalidOperationException`), a mismatch away from the sentinel, and a
non-positive negotiated version. -/
theorem c5_negotiation_cases_witness :
    (_readServerResponseAndGetVersion "db" ⟨"Ok", 42, ""⟩ = ([], .ok 42)) ∧
    (∃ e : WorkerError,
      _readServerResponseAndGetVersion "db" ⟨"AuthorizationFailed", 0, "m"⟩ = ([], .error e) ∧
      e.name = "AuthorizationException") ∧
    (∃ e : WorkerError,
      _readServerResponseAndGetVersion "db" ⟨"TcpVersionMismatch", OUT_OF_RANGE_STATUS, "m"⟩
        = ([], .error e) ∧ e.name = "TypeError") ∧
    (_readServerResponseAndGetVersion "db" ⟨"TcpVersionMismatch", 41, "m"⟩ = ([], .ok 41)) ∧
    (∃ e : WorkerError, checkNegotiatedProtocolVersion "sub" 0 = .error e ∧
      e.name = "InvalidOperationException") := by
  refine ⟨?_, ?_, ?_, ?_, ?_⟩
  · exact (c5_negotiation_cases "db" "sub" ⟨"Ok", 42, ""⟩ 0).1 rfl
  · exact (c5_negotiation_cases "db" "sub" ⟨"AuthorizationFailed", 0, "m"⟩ 0).2.1 rfl
  · exact (c5_negotiation_cases "db" "sub"
      ⟨"TcpVersionMismatch", OUT_OF_RANGE_STATUS, "m"⟩ 0).2.2.1 rfl rfl
  · exact (c5_negotiation_cases "db" "sub" ⟨"TcpVersionMismatch", 41, "m"⟩ 0).2.2.2.1 rfl
      (by decide)
  · exact (c5_negotiation_cases "db" "sub" ⟨"Ok", 42, ""⟩ 0).2.2.2.2 (by decide)

/-- C8: (a) if `dispose()` runs while a read is pending, the wake that
`_parser.end()` produces goes through the `readable` branch and the
recursive attempt sees the disposed flag, so the read resolves to `null`
without error; (b) when an `end` wake is the first event to settle a read
(every earlier attempt was a plain pending `readable` round), the
synthetic `SubscriptionException` is raised exactly when the worker is
neither disposed nor cancelled at that point - end-of-stream raises it
only when the worker is not already disposed. -/
theorem c8_dispose_and_end_of_stream
    (s₁ s₂ : ReadStep) (rest : List ReadStep)
    (pre : List ReadStep) (s : ReadStep) (tail : List ReadStep) :
    (¬s₁.cancelled → ¬s₁.disposed → s₁.avail = none → s₁.wake = .readable →
      s₂.disposed = true →
      _readNextObject (s₁ :: s₂ :: rest) = some (.ok none)) ∧
    ((∀ p ∈ pre, ¬p.cancelled ∧ ¬p.disposed ∧ p.avail = none ∧ p.wake = .readable) →
      s.avail = none → s.wake = .ended →
      _readNextObject (pre ++ s :: tail) =
        (if s.cancelled ∨ s.disposed then some (.ok none)
         else some (.error streamEndedError))) := by
  constructor
  · intro hc hd ha hw hd2
    simp only [_readNextObject, hc, hd, ha, hw, hd2]
    by_cases h2 : s₂.cancelled <;> simp [h2]
  · intro hpre ha hw
    induction pre with
    | nil =>
      by_cases hc : s.cancelled
      · simp [_readNextObject, hc]
      · by_cases hd : s.disposed
        · simp [_readNextObject, hc, hd]
        · simp [_readNextObject, hc, hd, ha, hw]
    | cons p ps ih =>
      have hp := hpre p (List.mem_cons_self p ps)
      have hps : ∀ q ∈ ps, ¬q.cancelled ∧ ¬q.disposed ∧ q.avail = none ∧ q.wake = .readable :=
        fun q hq => hpre q (List.mem_cons_of_mem p hq)
      simp only [List.cons_append, _readNextObject, hp.1, hp.2.1, hp.2.2.1, hp.2.2.2]
      simpa using ih hps

/-- Witness for C8 at concrete steps: a pending read woken by `readable`
after `dispose()` resolves to `null`, and an `end` event reaching a
non-disposed pending read raises the synthetic error while one reaching a
disposed read resolves to `null`. -/
theorem c8_dispose_and_end_of_stream_witness :
    (_readNextObject [⟨false, false, none, .readable⟩, ⟨true, true, none, .ended⟩]
      = some (.ok none)) ∧
    (_readNextObject [⟨false, false, none, .readable⟩, ⟨false, false, none, .ended⟩]
      = some (.error streamEndedError)) := by
  constructor
  · exact (c8_dispose_and_end_of_stream ⟨false, false, none, .readable⟩
      ⟨true, true, none, .ended⟩ [] [] default []).1
      (by decide) (by decide) rfl rfl rfl
  · have h := (c8_dispose_and_end_of_stream default default []
      [⟨false, false, none, .readable⟩] ⟨false, false, none, .ended⟩ []).2
      (by intro p hp; simp at hp; subst hp; refine ⟨by decide, by decide, rfl, rfl⟩)
      rfl rfl
    simpa using h

/-- C6 (counterexample): after the worker's first successful handshake -
against a node it was not redirected to - `currentNodeTag` is still
`null`, not that node's cluster tag: the getter reads `_redirectNode`,
which handshake completion never writes. -/
theorem c6_currentNodeTag_counterexample :
    currentNodeTag (applyWorkerTransitions initialWorkerState
        [.handshakeCompleted ⟨"A", "http://a"⟩]) = none ∧
    lastHandshakeTagFrom none [.handshakeCompleted ⟨"A", "http://a"⟩] = some "A" ∧
    (none : Option String) ≠ some "A" := by
  refine ⟨rfl, rfl, by simp⟩

/-- C6 (amended): at every point in the worker's lifetime,
`currentNodeTag` equals the cluster tag of the most recently resolved
redirect node - set when a redirect classification finds its target in
the local topology, cleared when contacting that node fails - and is
`null` when no redirect node is set (in particular before any redirect,
regardless of completed handshakes). -/
theorem c6_currentNodeTag_tracks_redirectNode (trace : List WorkerTransition) :
    ∀ st : WorkerState,
      currentNodeTag (applyWorkerTransitions st trace) =
        redirectTagFrom (currentNodeTag st) trace := by
  induction trace with
  | nil => intro st; rfl
  | cons t rest ih =>
    intro st
    cases t with
    | handshakeCompleted node =>
      have h := ih st
      simpa [applyWorkerTransitions, applyWorkerTransition, redirectTagFrom,
        List.foldl_cons] using h
    | redirectResolved node =>
      have h := ih {st with redirectNode := some node}
      simpa [applyWorkerTransitions, applyWorkerTransition, redirectTagFrom,
        currentNodeTag, List.foldl_cons] using h
    | redirectContactFailed =>
      have h := ih {st with redirectNode := none}
      simpa [applyWorkerTransitions, applyWorkerTransition, redirectTagFrom,
        currentNodeTag, List.foldl_cons] using h

/-- C7: the pipeline promise of `_emitBatchAndWaitForProcessing` resolves
exactly after a run of error-free completion-callback invocations whose
length equals the (positive) listener count captured at emit time, and a
listener invoking its callback with an error before that point rejects
the promise with that error. -/
theorem c7_emitBatch_pipeline (count : Int) (invs : List (Option WorkerError)) :
    (_emitBatchAndWaitForProcessing count invs = some (.ok ()) ↔
      0 < count ∧ invs.take count.toNat = List.replicate count.toNat none) ∧
    (∀ (k : Nat) (e : WorkerError) (rest : List (Option WorkerError)),
      (k : Int) < count →
      _emitBatchAndWaitForProcessing count (List.replicate k none ++ some e :: rest)
        = some (.error e)) := by
  constructor
  · induction invs generalizing count with
    | nil =>
      simp only [_emitBatchAndWaitForProcessing, List.take_nil]
      constructor
      · intro h; cases h
      · rintro ⟨hc, heq⟩
        rw [eq_comm, List.replicate_eq_nil_iff] at heq
        omega
    | cons head rest ih =>
      cases head with
      | some e =>
        simp only [_emitBatchAndWaitForProcessing]
        constructor
        · intro h; cases h
        · rintro ⟨hc, heq⟩
          have hn : count.toNat = (count.toNat - 1) + 1 := by omega
          rw [hn, List.take_succ_cons, List.replicate_succ] at heq
          cases heq
      | none =>
        simp only [_emitBatchAndWaitForProcessing]
        by_cases h1 : count - 1 = 0
        · have hc1 : count = 1 := by omega
          subst hc1
          simp [List.take_succ_cons, List.replicate_succ]
        · rw [if_neg h1, ih (count - 1)]
          constructor
          · rintro ⟨hc, htake⟩
            have hc0 : 0 < count := by omega
            have hn : count.toNat = (count - 1).toNat + 1 := by omega
            rw [hn, List.take_succ_cons, List.replicate_succ]
            exact ⟨hc0, by rw [htake]⟩
          · rintro ⟨hc, htake⟩
            have hc' : 0 < count - 1 := by omega
            have hn : count.toNat = (count - 1).toNat + 1 := by omega
            rw [hn, List.take_succ_cons, List.replicate_succ] at htake
            exact ⟨hc', by simpa using htake⟩
  · intro k
    induction k generalizing count with
    | zero =>
      intro e rest hk
      simp [_emitBatchAndWaitForProcessing]
    | succ n ih =>
      intro e rest hk
      have h1 : count - 1 ≠ 0 := by omega
      simp only [List.replicate_succ, List.cons_append, _emitBatchAndWaitForProcessing]
      rw [if_neg h1]
      exact ih (count - 1) e rest (by push_cast at hk ⊢; omega)

/-- Witness for C7 with two listeners: two error-free invocations resolve
the pipeline, and an erroring invocation after one error-free one rejects
it with that error. -/
theorem c7_emitBatch_pipeline_witness :
    _emitBatchAndWaitForProcessing 2 [none, none] = some (.ok ()) ∧
    _emitBatchAndWaitForProcessing 2 [none, some ⟨"SubscriberError", "boom", none⟩]
      = some (.error ⟨"SubscriberError", "boom", none⟩) := by
  constructor
  · exact (c7_emitBatch_pipeline 2 [none, none]).1.mpr ⟨by decide, by decide⟩
  · have h := (c7_emitBatch_pipeline 2 []).2 1 ⟨"SubscriberError", "boom", none⟩ []
      (by decide)
    simpa using h

/-- C10 (code bug): the public `removeListener` never terminates - for every
amount of fuel it fails to complete and in particular never updates the
emitter - whereas `off` does remove the handler (witnessed on a concrete
table). The body of `removeListener` calls itself instead of delegating to
`off`/`this._emitter.removeListener`, an evident slip given its overload
signatures mirror `off` exactly. -/
theorem c10_removeListener_diverges :
    (∀ (fuel : Nat) (event : String) (handler : Nat) (st : EmitterState),
        removeListener fuel event handler st = none) ∧
    off "batch" 7 ⟨[("batch", 7), ("end", 3)]⟩ = ⟨[("end", 3)]⟩ := by
  constructor
  · intro fuel
    induction fuel with
    | zero => intro event handler st; rfl
    | succ n ih => intro event handler st; exact ih event handler st
  · decide

end SubscriptionWorker
